import Mathlib

/-
Verification of the gripper-with-force-sensor device session
(`lzhgripperwithforcesensor/app.py`, class `GripperWithForceSensor`).

The session keeps a Python dict `self._status` (the DeviceState), a float
`self._last_force`, and a callback configuration
(`self._force_callback`, `self._callback_threshold`,
`self._single_callback_mode`).  Inbound messages arrive as raw strings and
are handled by `_on_atc_message`; commands are formatted JSON strings handed
to the transport.

Embedding choices:
* Python floats are modelled as rationals (ℚ); every numeric comparison in
  the verified scenarios is far from any float-rounding boundary.
* A JSON value is modelled by `JVal` (number, string, boolean, null), which
  covers every value the claims exercise.
* A Python dict is an association list `Dict` in insertion order;
  `setKey` is `d[k] = v`, `updateDict` is `d.update(res)`, `popKey` is
  `d.pop(k)`, `getKey` is `d[k]` / `k in d`.
* `json.loads` either fails (`Msg.malformed`) or yields an object
  (`Msg.obj fields`); the dict it returns is `updateDict [] fields`
  (later duplicate keys win, as in Python).
* The registered callback is an opaque reference (`Option Nat`); the
  behaviour of the external callback is a parameter `raises : JVal → Bool`
  saying on which argument the callback throws.
* A handler run returns the new session, the list of values the callback
  was invoked with, and whether the `except` branch logged an error.
-/

namespace GripperModel

/-- A JSON value as produced by `json.loads` (the fragment the driver uses). -/
inductive JVal where
  | num (q : ℚ)
  | str (s : String)
  | bool (b : Bool)
  | null
deriving DecidableEq

/-- A Python dict with string keys, as an association list in insertion order. -/
abbrev Dict := List (String × JVal)

/-- Python `d[k] = v`: overwrite in place if `k` is present, else append. -/
def setKey (d : Dict) (k : String) (v : JVal) : Dict :=
  if d.any (fun p => p.1 = k) then
    d.map (fun p => if p.1 = k then (k, v) else p)
  else
    d ++ [(k, v)]

/-- Python `d.update(res)`: assign each pair of `res` into `d` in order. -/
def updateDict (d : Dict) (res : Dict) : Dict :=
  res.foldl (fun acc p => setKey acc p.1 p.2) d

/-- Python `d.pop(k)` (the removal effect): drop every pair with key `k`. -/
def popKey (d : Dict) (k : String) : Dict :=
  d.filter (fun p => p.1 ≠ k)

/-- Python `d[k]` / `k in d`: first pair with key `k`, if any. -/
def getKey (d : Dict) (k : String) : Option JVal :=
  (d.find? (fun p => p.1 = k)).map (fun p => p.2)

/-- Last binding of `k` in an association list (later assignments win). -/
def getLast : Dict → String → Option JVal
  | [], _ => none
  | p :: rest, k =>
    match getLast rest k with
    | some v => some v
    | none => if p.1 = k then some p.2 else none

/-- Numeric coercion used by Python `abs`, `-` and `<`/`>=` on a JSON value:
numbers are themselves, booleans are 0/1, strings and null raise `TypeError`. -/
def toNum : JVal → Option ℚ
  | .num q => some q
  | .bool b => some (if b then 1 else 0)
  | _ => none

/-- The session state: `self._status`, `self._last_force`,
`self._force_callback` (an opaque reference; `none` = no callback),
`self._callback_threshold`, `self._single_callback_mode`. -/
structure Session where
  status : Dict
  lastForce : ℚ
  callback : Option Nat
  threshold : ℚ
  singleMode : Bool
deriving DecidableEq

/-- The state set up by `__init__`: status `{"mode": 1, "action": "release",
"force": 0.0}`, `_last_force = 0.0`, and the caller-supplied callback config. -/
def initSession (cb : Option Nat) (thr : ℚ) (sm : Bool) : Session :=
  { status := [("mode", .num 1), ("action", .str "release"), ("force", .num 0)],
    lastForce := 0, callback := cb, threshold := thr, singleMode := sm }

/-- An inbound raw message after `json.loads`: either the parse raised, or it
yielded an object with these key/value pairs (in order, duplicates allowed). -/
inductive Msg where
  | malformed (raw : String)
  | obj (fields : List (String × JVal))

/-- Result of one `_on_atc_message` call: the session afterwards, the values
the callback was invoked with, and whether the `except` branch logged. -/
structure HandlerOut where
  state : Session
  fired : List JVal
  logged : Bool
deriving DecidableEq

/-- `_on_atc_message`, line by line.  `raises fv = true` means the external
callback throws when invoked with `fv`; the `try`/`except` around the whole
body catches every exception (parse failure, `TypeError` from `abs`/`-`/`>=`
on a non-numeric force, or a throwing callback) and logs it, so statements
after the raise point do not run and nothing propagates to the transport. -/
def onAtcMessage (raises : JVal → Bool) (s : Session) (m : Msg) : HandlerOut :=
  match m with
  | .malformed _ => { state := s, fired := [], logged := true }
  | .obj fields =>
    let res := popKey (updateDict [] fields) "force_sensor_zeroing"
    let s1 : Session := { s with status := updateDict s.status res }
    match getKey res "force", s.callback with
    | some fv, some _ =>
      if s.singleMode then
        match toNum fv with
        | none => { state := s1, fired := [], logged := true }
        | some x =>
          if s.threshold ≤ |x| ∧ s.lastForce < s.threshold then
            if raises fv then
              { state := s1, fired := [fv], logged := true }
            else
              { state := { s1 with lastForce := x }, fired := [fv], logged := false }
          else
            { state := { s1 with lastForce := x }, fired := [], logged := false }
      else
        match toNum fv with
        | none => { state := s1, fired := [], logged := true }
        | some x =>
          if s.threshold ≤ |s.lastForce - x| then
            if raises fv then
              { state := { s1 with lastForce := x }, fired := [fv], logged := true }
            else
              { state := { s1 with lastForce := x }, fired := [fv], logged := false }
          else
            { state := s1, fired := [], logged := false }
    | _, _ => { state := s1, fired := [], logged := false }

/-- Process a list of inbound messages in order, concatenating the values the
callback fired with. -/
def runMsgs (raises : JVal → Bool) : Session → List Msg → Session × List JVal
  | s, [] => (s, [])
  | s, m :: ms =>
    let out := onAtcMessage raises s m
    let rest := runMsgs raises out.state ms
    (rest.1, out.fired ++ rest.2)

/-- A callback that never throws. -/
def noRaise : JVal → Bool := fun _ => false

/-- An inbound message carrying just a force reading. -/
def forceMsg (x : ℚ) : Msg := .obj [("force", .num x)]

/-- The values the callback fires with when a session receives the given
force readings (callback never throws). -/
def firedOn (s : Session) (qs : List ℚ) : List JVal :=
  (runMsgs noRaise s (qs.map forceMsg)).2

/-- `set_force_callback`: replace the three config fields; nothing is sent
(the second component is the list of messages handed to the transport). -/
def setForceCallback (s : Session) (cb : Option Nat) (thr : ℚ) (sm : Bool) :
    Session × List String :=
  ({ s with callback := cb, threshold := thr, singleMode := sm }, [])

/-- Argument passed to `set_mode`: a Python `int`, or any value for which
`isinstance(mode, int)` fails. -/
inductive PyArg where
  | int (n : ℤ)
  | nonInt

/-- Outcome of a command method: a message handed to the transport, or an
invalid-argument error (Python `ValueError`) raised before any send. -/
inductive SendResult where
  | sent (msg : String)
  | invalidArgument (emsg : String)
deriving DecidableEq

/-- `set_mode`: validate `isinstance(mode, int) and 1 <= mode <= 4`, then
send the f-string `'\x7b"mode": \x7bmode\x7d\x7d'` rendering. -/
def setMode (mode : PyArg) : SendResult :=
  match mode with
  | .int n =>
    if 1 ≤ n ∧ n ≤ 4 then .sent ("\x7b\"mode\": " ++ toString n ++ "\x7d")
    else .invalidArgument "mode 参数必须是 1~4 之间的整数"
  | .nonInt => .invalidArgument "mode 参数必须是 1~4 之间的整数"

/-
Aliasing model for `status()`.  Python dicts are heap objects handled by
reference; `status()` is `return self._status`, so the caller receives the
very object the session mutates.  A `Heap` maps object identities to dict
contents, and the session holds the identity of its `_status` object.
-/

/-- The Python object heap: object identity ↦ current dict contents. -/
abbrev Heap := Nat → Dict

/-- The part of the session relevant to aliasing: the identity of the
`self._status` object. -/
structure RefSession where
  statusRef : Nat

/-- `status()`: `return self._status` — the reference itself, no copy. -/
def statusMethod (s : RefSession) : Nat := s.statusRef

/-- A caller assigning `m[k] = v` on a dict object it holds a reference to. -/
def heapWrite (h : Heap) (a : Nat) (k : String) (v : JVal) : Heap :=
  fun b => if b = a then setKey (h b) k v else h b

/-- The merge step of `_on_atc_message` seen on the heap:
`self._status.update(res)` mutates the dict object at `s.statusRef` in place. -/
def heapMerge (h : Heap) (s : RefSession) (fields : List (String × JVal)) : Heap :=
  fun b =>
    if b = s.statusRef then
      updateDict (h b) (popKey (updateDict [] fields) "force_sensor_zeroing")
    else h b

/-! Lemmas about the dict operations. -/

theorem getKey_cons (p : String × JVal) (d : Dict) (k : String) :
    getKey (p :: d) k = if p.1 = k then some p.2 else getKey d k := by
  by_cases h : p.1 = k
  · simp [getKey, List.find?_cons_of_pos, h]
  · simp [getKey, List.find?_cons_of_neg, h]

theorem getKey_eq_none_of_any_eq_false {d : Dict} {k : String}
    (h : d.any (fun p => p.1 = k) = false) : getKey d k = none := by
  have h' := List.any_eq_false.mp h
  simp only [getKey, List.find?_eq_none.mpr h', Option.map_none']

theorem getKey_map_setPair_of_ne {k : String} {v : JVal} (d : Dict) {k' : String}
    (hk : k' ≠ k) :
    getKey (d.map fun p => if p.1 = k then (k, v) else p) k' = getKey d k' := by
  induction d with
  | nil => rfl
  | cons p d ih =>
    by_cases hp : p.1 = k
    · simp only [List.map_cons, if_pos hp, getKey_cons, ih]
      rw [if_neg (by simpa using (Ne.symm hk)), if_neg (by rw [hp]; exact Ne.symm hk)]
    · simp only [List.map_cons, if_neg hp, getKey_cons, ih]

theorem getKey_map_setPair_self {k : String} {v : JVal} (d : Dict)
    (hc : d.any (fun p => p.1 = k) = true) :
    getKey (d.map fun p => if p.1 = k then (k, v) else p) k = some v := by
  induction d with
  | nil => simp at hc
  | cons p d ih =>
    by_cases hp : p.1 = k
    · simp [List.map_cons, if_pos hp, getKey_cons]
    · simp only [List.any_cons, hp, decide_False, Bool.false_or] at hc
      simp only [List.map_cons, if_neg hp, getKey_cons, if_neg hp, ih hc]

theorem getKey_setKey (d : Dict) (k : String) (v : JVal) (k' : String) :
    getKey (setKey d k v) k' = if k' = k then some v else getKey d k' := by
  rw [setKey]
  split
  case isTrue hc =>
    by_cases hk : k' = k
    · rw [if_pos hk, hk, getKey_map_setPair_self d hc]
    · rw [if_neg hk, getKey_map_setPair_of_ne d hk]
  case isFalse hc =>
    by_cases hk : k' = k
    · subst hk
      simp only [getKey, List.find?_append]
      have hnone : List.find? (fun p => p.1 = k') d = none := by
        rw [List.find?_eq_none]
        intro x hx
        simp only [decide_eq_true_eq]
        intro hxk
        exact hc (List.any_eq_true.mpr ⟨x, hx, by simp [hxk]⟩)
      rw [hnone]
      simp [List.find?]
    · simp only [getKey, List.find?_append, List.find?]
      rw [decide_eq_false (fun h : k = k' => hk h.symm)]
      cases hfind : List.find? (fun p => p.1 = k') d <;> simp [hfind, hk]

theorem getKey_updateDict (res : Dict) : ∀ (d : Dict) (k : String),
    getKey (updateDict d res) k =
      match getLast res k with
      | some v => some v
      | none => getKey d k := by
  induction res with
  | nil => intro d k; rfl
  | cons p res ih =>
    intro d k
    have h1 : updateDict d (p :: res) = updateDict (setKey d p.1 p.2) res := rfl
    rw [h1, ih]
    cases hres : getLast res k with
    | some v => simp [getLast, hres]
    | none =>
      simp only [getLast, hres, getKey_setKey]
      by_cases hk : k = p.1
      · rw [if_pos hk, if_pos hk.symm]
      · rw [if_neg hk, if_neg (Ne.symm hk)]

theorem getKey_updateDict_of_some {res : Dict} {k : String} {v : JVal}
    (h : getLast res k = some v) (d : Dict) :
    getKey (updateDict d res) k = some v := by
  rw [getKey_updateDict, h]

theorem getKey_updateDict_of_none {res : Dict} {k : String}
    (h : getLast res k = none) (d : Dict) :
    getKey (updateDict d res) k = getKey d k := by
  rw [getKey_updateDict, h]

theorem getKey_popKey (d : Dict) (k0 k : String) :
    getKey (popKey d k0) k = if k = k0 then none else getKey d k := by
  induction d with
  | nil => simp [popKey, getKey]
  | cons p d ih =>
    rw [popKey, List.filter_cons]
    by_cases hp : p.1 = k0
    · simp only [hp, ne_eq, not_true_eq_false, decide_False, popKey] at ih ⊢
      rw [if_neg (by simp)]
      rw [ih]
      by_cases hk : k = k0
      · rw [if_pos hk, if_pos hk]
      · rw [if_neg hk, if_neg hk, getKey_cons, if_neg (by rw [hp]; exact fun h => hk h.symm)]
    · simp only [ne_eq, hp, not_false_eq_true, decide_True, if_pos, popKey] at ih ⊢
      rw [getKey_cons, getKey_cons, ih]
      by_cases hk : k = k0
      · rw [if_pos hk, if_neg (by rw [hk]; exact hp), if_pos hk]
      · rw [if_neg hk, if_neg hk]

theorem getLast_popKey_self (d : Dict) (k0 : String) :
    getLast (popKey d k0) k0 = none := by
  induction d with
  | nil => rfl
  | cons p d ih =>
    by_cases hp : p.1 = k0
    · rw [show popKey (p :: d) k0 = popKey d k0 by simp [popKey, List.filter_cons, hp]]
      exact ih
    · rw [show popKey (p :: d) k0 = p :: popKey d k0 by
        simp [popKey, List.filter_cons, hp]]
      rw [getLast, ih]
      simp [hp]

theorem getLast_popKey_ne (d : Dict) {k0 k : String} (hk : k ≠ k0) :
    getLast (popKey d k0) k = getLast d k := by
  induction d with
  | nil => rfl
  | cons p d ih =>
    by_cases hp : p.1 = k0
    · rw [show popKey (p :: d) k0 = popKey d k0 by simp [popKey, List.filter_cons, hp]]
      rw [ih, getLast]
      cases getLast d k with
      | some v => rfl
      | none => rw [if_neg (by rw [hp]; exact fun h => hk h.symm)]
    · rw [show popKey (p :: d) k0 = p :: popKey d k0 by
        simp [popKey, List.filter_cons, hp]]
      rw [getLast, getLast, ih]

/-! Shape lemmas about one `_on_atc_message` call. -/

/-- On a message carrying just `force`, with a callback registered and single
mode on, the handler reduces to the edge-triggered case split of the source. -/
theorem onAtc_single_step (raises : JVal → Bool) (s : Session) (c : Nat) (x : ℚ)
    (hcb : s.callback = some c) (hsm : s.singleMode = true) :
    onAtcMessage raises s (forceMsg x) =
      if s.threshold ≤ |x| ∧ s.lastForce < s.threshold then
        if raises (.num x) then
          { state := { s with status := updateDict s.status [("force", .num x)] },
            fired := [.num x], logged := true }
        else
          { state := { s with status := updateDict s.status [("force", .num x)], lastForce := x },
            fired := [.num x], logged := false }
      else
        { state := { s with status := updateDict s.status [("force", .num x)], lastForce := x },
          fired := [], logged := false } := by
  obtain ⟨st, lf, cb, th, sm⟩ := s
  simp only at hcb hsm
  subst hcb hsm
  rfl

/-- On a message carrying just `force`, with a callback registered and single
mode off, the handler reduces to the delta-triggered case split of the source. -/
theorem onAtc_delta_step (raises : JVal → Bool) (s : Session) (c : Nat) (x : ℚ)
    (hcb : s.callback = some c) (hsm : s.singleMode = false) :
    onAtcMessage raises s (forceMsg x) =
      if s.threshold ≤ |s.lastForce - x| then
        if raises (.num x) then
          { state := { s with status := updateDict s.status [("force", .num x)], lastForce := x },
            fired := [.num x], logged := true }
        else
          { state := { s with status := updateDict s.status [("force", .num x)], lastForce := x },
            fired := [.num x], logged := false }
      else
        { state := { s with status := updateDict s.status [("force", .num x)] },
          fired := [], logged := false } := by
  obtain ⟨st, lf, cb, th, sm⟩ := s
  simp only at hcb hsm
  subst hcb hsm
  rfl

/-- On any parsed object, whatever branch the threshold evaluation takes, the
resulting `_status` is the old one merged with the stripped message dict. -/
theorem onAtc_obj_status (raises : JVal → Bool) (s : Session)
    (fields : List (String × JVal)) :
    (onAtcMessage raises s (.obj fields)).state.status =
      updateDict s.status (popKey (updateDict [] fields) "force_sensor_zeroing") := by
  rw [onAtcMessage]
  repeat' split
  all_goals rfl

/-- One handler call never introduces the `force_sensor_zeroing` key. -/
theorem onAtc_preserves_no_zeroing (raises : JVal → Bool) (s : Session) (m : Msg)
    (h : getKey s.status "force_sensor_zeroing" = none) :
    getKey (onAtcMessage raises s m).state.status "force_sensor_zeroing" = none := by
  cases m with
  | malformed raw => exact h
  | obj fields =>
    rw [onAtc_obj_status]
    rw [getKey_updateDict_of_none (getLast_popKey_self _ _)]
    exact h

/-! The claims. -/

section Claims

attribute [local semireducible] Rat.add Rat.sub Rat.mul Rat.inv Rat.ofScientific

/-- Claim C1: single-mode threshold evaluation is a rising-edge detector.  For
an inbound force message, with a callback registered and single mode active,
the callback fires with the new force value iff `|forceVal| ≥ threshold` and
`lastForce < threshold`, and `lastForce := forceVal` after the check
regardless of firing; with threshold 3 and lastForce 0 the force sequence
[1, 3.5, 3.6, 1, 3.2] fires exactly twice, at 3.5 and at 3.2, not at 3.6. -/
theorem claim_C1_single_mode_rising_edge :
    (∀ (s : Session) (c : Nat) (x : ℚ), s.callback = some c → s.singleMode = true →
      ((onAtcMessage noRaise s (forceMsg x)).fired =
          (if |x| ≥ s.threshold ∧ s.lastForce < s.threshold then [JVal.num x] else []))
      ∧ (onAtcMessage noRaise s (forceMsg x)).state.lastForce = x)
    ∧ firedOn (initSession (some 0) 3 true) [1, 7/2, 18/5, 1, 16/5]
        = [JVal.num (7/2), JVal.num (16/5)] := by
  constructor
  · intro s c x hcb hsm
    rw [onAtc_single_step noRaise s c x hcb hsm]
    simp only [ge_iff_le, noRaise]
    constructor
    · split <;> simp
    · split <;> simp
  · decide

/-- Witness for C1: with threshold 3, lastForce 0, the force message 3.5 fires
the callback and sets lastForce to 3.5. -/
theorem claim_C1_single_mode_rising_edge_witness :
    (onAtcMessage noRaise (initSession (some 0) 3 true) (forceMsg (7/2))).fired
        = [JVal.num (7/2)]
    ∧ (onAtcMessage noRaise (initSession (some 0) 3 true)
        (forceMsg (7/2))).state.lastForce = 7/2 := by
  have h := claim_C1_single_mode_rising_edge.1 (initSession (some 0) 3 true) 0 (7/2) rfl rfl
  refine ⟨?_, h.2⟩
  rw [h.1, if_pos (by constructor <;> decide)]

/-- Claim C2: delta-mode threshold evaluation is change-triggered with
accumulation.  For an inbound force message, with a callback registered and
single mode off, the callback fires with the new force value iff
`|lastForce - forceVal| ≥ threshold`, and `lastForce := forceVal` exactly when
it fires (unchanged otherwise); with threshold 0.1 and lastForce 0 the force
sequence [0.05, 0.12, 0.12, 0.25] fires exactly at the first 0.12 and at
0.25. -/
theorem claim_C2_delta_mode_accumulation :
    (∀ (s : Session) (c : Nat) (x : ℚ), s.callback = some c → s.singleMode = false →
      ((onAtcMessage noRaise s (forceMsg x)).fired =
          (if |s.lastForce - x| ≥ s.threshold then [JVal.num x] else []))
      ∧ (onAtcMessage noRaise s (forceMsg x)).state.lastForce =
          (if |s.lastForce - x| ≥ s.threshold then x else s.lastForce))
    ∧ firedOn (initSession (some 0) (1/10) false) [1/20, 3/25, 3/25, 1/4]
        = [JVal.num (3/25), JVal.num (1/4)] := by
  constructor
  · intro s c x hcb hsm
    rw [onAtc_delta_step noRaise s c x hcb hsm]
    simp only [ge_iff_le, noRaise]
    constructor
    · split <;> simp
    · split <;> simp
  · decide

/-- Witness for C2: with threshold 0.1, lastForce 0, the force message 0.12
fires the callback and sets lastForce to 0.12. -/
theorem claim_C2_delta_mode_accumulation_witness :
    (onAtcMessage noRaise (initSession (some 0) (1/10) false) (forceMsg (3/25))).fired
        = [JVal.num (3/25)]
    ∧ (onAtcMessage noRaise (initSession (some 0) (1/10) false)
        (forceMsg (3/25))).state.lastForce = 3/25 := by
  have h := claim_C2_delta_mode_accumulation.1
    (initSession (some 0) (1/10) false) 0 (3/25) rfl rfl
  constructor
  · rw [h.1, if_pos (by decide)]
  · rw [h.2, if_pos (by decide)]

/-- Claim C3: `set_mode` sends exactly `\x7b"mode": mode\x7d` for integer mode in
[1,4] and raises nothing; for every other integer and every non-integer it
raises the invalid-argument error (`ValueError`) and sends nothing. -/
theorem claim_C3_setMode_validation :
    (∀ n : ℤ, 1 ≤ n → n ≤ 4 →
        setMode (.int n) = .sent ("\x7b\"mode\": " ++ toString n ++ "\x7d"))
    ∧ (∀ n : ℤ, ¬ (1 ≤ n ∧ n ≤ 4) →
        setMode (.int n) = .invalidArgument "mode 参数必须是 1~4 之间的整数")
    ∧ setMode .nonInt = .invalidArgument "mode 参数必须是 1~4 之间的整数" := by
  refine ⟨?_, ?_, rfl⟩
  · intro n h1 h4
    rw [setMode, if_pos ⟨h1, h4⟩]
  · intro n h
    rw [setMode, if_neg h]

/-- Witness for C3: mode 2 sends `\x7b"mode": 2\x7d`; mode 7 raises. -/
theorem claim_C3_setMode_validation_witness :
    setMode (.int 2) = .sent "\x7b\"mode\": 2\x7d"
    ∧ setMode (.int 7) = .invalidArgument "mode 参数必须是 1~4 之间的整数" := by
  constructor
  · have h := claim_C3_setMode_validation.1 2 (by norm_num) (by norm_num)
    rw [h]
    decide
  · exact claim_C3_setMode_validation.2.1 7 (by norm_num)

/-- Claim C4: a raw message that fails to parse as JSON leaves the session
state (DeviceState and lastForce) unchanged, invokes no callback, and only
logs; no exception propagates (the handler is total and returns the logged
outcome). -/
theorem claim_C4_malformed_message_noop :
    ∀ (raises : JVal → Bool) (s : Session) (raw : String),
      onAtcMessage raises s (.malformed raw) =
        { state := s, fired := [], logged := true } :=
  fun _ _ _ => rfl

/-- Claim C5 counterexample: `status()` does not return a copy/snapshot.  On a
session whose `_status` object (identity 0) holds the construction defaults,
`status()` returns identity 0; after the inbound merge of `{"force": 2.5}`
the dict at that previously returned identity shows force 2.5 instead of its
value 0.0 at return time — a subsequent merge changed a previously returned
`status()` result. -/
theorem claim_C5_status_copy_counterexample :
    getKey (heapMerge (fun _ => (initSession none 0 false).status) { statusRef := 0 }
        [("force", JVal.num (5/2))] (statusMethod { statusRef := 0 })) "force"
      = some (JVal.num (5/2))
    ∧ getKey ((fun _ => (initSession none 0 false).status : Heap)
        (statusMethod { statusRef := 0 })) "force" = some (JVal.num 0) := by
  constructor <;> decide

/-- Claim C5 amended: `status()` returns the internal state mapping itself by
reference, not a copy: the returned identity is the session's `_status`
object, every later inbound merge is visible through a previously returned
result, and a caller mutating the returned mapping mutates the session's
internal DeviceState. -/
theorem claim_C5_status_returns_live_reference :
    ∀ (h : Heap) (s : RefSession) (fields : List (String × JVal)) (k : String) (v : JVal),
      statusMethod s = s.statusRef
      ∧ heapMerge h s fields (statusMethod s) =
          updateDict (h s.statusRef) (popKey (updateDict [] fields) "force_sensor_zeroing")
      ∧ heapWrite h (statusMethod s) k v s.statusRef = setKey (h s.statusRef) k v := by
  intro h s fields k v
  refine ⟨rfl, ?_, ?_⟩ <;> simp [heapMerge, heapWrite, statusMethod]

/-- Claim C6: after any sequence of inbound messages the key
`force_sensor_zeroing` is never present in the state returned by `status()`
(it is stripped before the merge), while the remaining keys of such a
message (e.g. `force`) are merged normally. -/
theorem claim_C6_zeroing_key_never_persists :
    (∀ (raises : JVal → Bool) (s : Session) (ms : List Msg),
        getKey s.status "force_sensor_zeroing" = none →
        getKey (runMsgs raises s ms).1.status "force_sensor_zeroing" = none)
    ∧ getKey ((onAtcMessage noRaise (initSession none (1/10) false)
        (.obj [("force_sensor_zeroing", JVal.str ""), ("force", JVal.num 0)])).state.status)
        "force_sensor_zeroing" = none
    ∧ getKey ((onAtcMessage noRaise (initSession none (1/10) false)
        (.obj [("force_sensor_zeroing", JVal.str ""), ("force", JVal.num 0)])).state.status)
        "force" = some (JVal.num 0) := by
  refine ⟨?_, by decide, by decide⟩
  intro raises s ms
  induction ms generalizing s with
  | nil => intro h; exact h
  | cons m ms ih =>
    intro h
    exact ih (onAtcMessage raises s m).state (onAtc_preserves_no_zeroing raises s m h)

/-- Witness for C6: one zeroing-acknowledgment message into a fresh session
leaves no `force_sensor_zeroing` key in the state. -/
theorem claim_C6_zeroing_key_never_persists_witness :
    getKey (runMsgs noRaise (initSession none (1/10) false)
        [.obj [("force_sensor_zeroing", JVal.str ""), ("force", JVal.num 0)]]).1.status
      "force_sensor_zeroing" = none :=
  claim_C6_zeroing_key_never_persists.1 noRaise (initSession none (1/10) false)
    [.obj [("force_sensor_zeroing", JVal.str ""), ("force", JVal.num 0)]] (by decide)

/-- Claim C7 counterexample: "every key present in the inbound object
overwrites or adds the corresponding DeviceState entry" fails at the message
`{"force_sensor_zeroing": ""}`: after the handler runs, that key was not
added to the state at all. -/
theorem claim_C7_counterexample_zeroing_key_not_added :
    getKey ((onAtcMessage noRaise (initSession none (1/10) false)
        (.obj [("force_sensor_zeroing", JVal.str "")])).state.status)
        "force_sensor_zeroing" ≠ some (JVal.str "")
    ∧ getKey ((onAtcMessage noRaise (initSession none (1/10) false)
        (.obj [("force_sensor_zeroing", JVal.str "")])).state.status)
        "force_sensor_zeroing" = none := by
  constructor <;> decide

/-- Claim C7 amended: the inbound merge is a pure key-wise update that never
removes existing keys: every key of the parsed object OTHER THAN
`force_sensor_zeroing` (which is stripped, cf. C6) overwrites or adds the
corresponding entry; every state key not set by the stripped message keeps
its previous value; in particular `{"force": 2.5}` sets force to 2.5 and
leaves mode and action unchanged. -/
theorem claim_C7_merge_key_wise_update :
    (∀ (s : Session) (fields : List (String × JVal)) (k : String) (v : JVal),
        k ≠ "force_sensor_zeroing" →
        getLast (updateDict [] fields) k = some v →
        getKey (onAtcMessage noRaise s (.obj fields)).state.status k = some v)
    ∧ (∀ (s : Session) (fields : List (String × JVal)) (k : String),
        getLast (popKey (updateDict [] fields) "force_sensor_zeroing") k = none →
        getKey (onAtcMessage noRaise s (.obj fields)).state.status k = getKey s.status k)
    ∧ getKey ((onAtcMessage noRaise (initSession none (1/10) false)
        (.obj [("force", JVal.num (5/2))])).state.status) "force" = some (JVal.num (5/2))
    ∧ getKey ((onAtcMessage noRaise (initSession none (1/10) false)
        (.obj [("force", JVal.num (5/2))])).state.status) "mode" = some (JVal.num 1)
    ∧ getKey ((onAtcMessage noRaise (initSession none (1/10) false)
        (.obj [("force", JVal.num (5/2))])).state.status) "action"
        = some (JVal.str "release") := by
  refine ⟨?_, ?_, by decide, by decide, by decide⟩
  · intro s fields k v hk hlast
    rw [onAtc_obj_status]
    exact getKey_updateDict_of_some (by rw [getLast_popKey_ne _ hk]; exact hlast) _
  · intro s fields k hnone
    rw [onAtc_obj_status]
    exact getKey_updateDict_of_none hnone _

/-- Witness for C7 (amended): the message `{"force": 2.5}` makes the state's
force entry 2.5. -/
theorem claim_C7_merge_key_wise_update_witness :
    getKey ((onAtcMessage noRaise (initSession none (1/10) false)
        (.obj [("force", JVal.num (5/2))])).state.status) "force"
      = some (JVal.num (5/2)) :=
  claim_C7_merge_key_wise_update.1 (initSession none (1/10) false)
    [("force", JVal.num (5/2))] "force" (JVal.num (5/2)) (by decide) (by decide)

/-- Claim C8: `set_force_callback` replaces exactly the triple (callback,
threshold, singleMode); `lastForce` and the entire DeviceState keep their
previous values, and no message is sent. -/
theorem claim_C8_setForceCallback_frame :
    ∀ (s : Session) (cb : Option Nat) (thr : ℚ) (sm : Bool),
      (setForceCallback s cb thr sm).1.callback = cb
      ∧ (setForceCallback s cb thr sm).1.threshold = thr
      ∧ (setForceCallback s cb thr sm).1.singleMode = sm
      ∧ (setForceCallback s cb thr sm).1.lastForce = s.lastForce
      ∧ (setForceCallback s cb thr sm).1.status = s.status
      ∧ (setForceCallback s cb thr sm).2 = [] :=
  fun _ _ _ _ => ⟨rfl, rfl, rfl, rfl, rfl, rfl⟩

/-- Claim C9: the merge is not atomic with threshold evaluation.  When a
callback is registered and the stripped parsed object carries a non-numeric
force value, the merge into DeviceState has already happened and persists —
the state shows the bad value — while the evaluation raises, is caught and
only logged; `lastForce` is untouched, the callback is not invoked, and
nothing escapes the handler. -/
theorem claim_C9_merge_precedes_failed_evaluation :
    (∀ (raises : JVal → Bool) (s : Session) (c : Nat)
        (fields : List (String × JVal)) (fv : JVal),
        s.callback = some c →
        getKey (popKey (updateDict [] fields) "force_sensor_zeroing") "force" = some fv →
        toNum fv = none →
        onAtcMessage raises s (.obj fields) =
          { state := { s with status := updateDict s.status (popKey (updateDict [] fields) "force_sensor_zeroing") },
            fired := [], logged := true })
    ∧ getKey ((onAtcMessage noRaise (initSession (some 0) (1/10) false)
        (.obj [("force", JVal.str "volts")])).state.status) "force"
        = some (JVal.str "volts") := by
  constructor
  · intro raises s c fields fv hcb hfv hbad
    rw [onAtcMessage]
    simp only [hfv, hcb]
    split <;> simp_all [toNum]
  · decide

/-- Witness for C9: a registered callback plus the message
`{"force": "volts"}`: the bad value is merged and persists, nothing fires,
the error is logged. -/
theorem claim_C9_merge_precedes_failed_evaluation_witness :
    onAtcMessage noRaise (initSession (some 0) (1/10) false)
        (.obj [("force", JVal.str "volts")]) =
      { state := { initSession (some 0) (1/10) false with status := updateDict (initSession (some 0) (1/10) false).status (popKey (updateDict [] [("force", JVal.str "volts")]) "force_sensor_zeroing") },
        fired := [], logged := true } :=
  claim_C9_merge_precedes_failed_evaluation.1 noRaise (initSession (some 0) (1/10) false) 0
    [("force", JVal.str "volts")] (JVal.str "volts") rfl (by decide) rfl

/-- Claim C10: a callback that raises when fired is caught by the handler
(nothing propagates to the transport), and the post-fire bookkeeping is
skipped: in single mode `lastForce` is NOT updated to the new force value
(the assignment placed after the callback is bypassed), while in delta mode
`lastForce` was already updated before the callback ran. -/
theorem claim_C10_raising_callback_bookkeeping :
    (∀ (s : Session) (c : Nat) (x : ℚ),
        s.callback = some c → s.singleMode = true →
        s.threshold ≤ |x| → s.lastForce < s.threshold →
        onAtcMessage (fun _ => true) s (forceMsg x) =
          { state := { s with status := updateDict s.status [("force", JVal.num x)] },
            fired := [JVal.num x], logged := true })
    ∧ (∀ (s : Session) (c : Nat) (x : ℚ),
        s.callback = some c → s.singleMode = false →
        s.threshold ≤ |s.lastForce - x| →
        onAtcMessage (fun _ => true) s (forceMsg x) =
          { state := { s with status := updateDict s.status [("force", JVal.num x)], lastForce := x },
            fired := [JVal.num x], logged := true }) := by
  constructor
  · intro s c x hcb hsm h1 h2
    rw [onAtc_single_step (fun _ => true) s c x hcb hsm, if_pos ⟨h1, h2⟩, if_pos rfl]
  · intro s c x hcb hsm h1
    rw [onAtc_delta_step (fun _ => true) s c x hcb hsm, if_pos h1, if_pos rfl]

/-- Witness for C10: a raising callback at force 4 (single mode, threshold 3,
lastForce 0) leaves lastForce at 0; at force 1 (delta mode, threshold 0.1,
lastForce 0) lastForce becomes 1. -/
theorem claim_C10_raising_callback_bookkeeping_witness :
    onAtcMessage (fun _ => true) (initSession (some 0) 3 true) (forceMsg 4) =
      { state := { initSession (some 0) 3 true with status := updateDict (initSession (some 0) 3 true).status [("force", JVal.num 4)] },
        fired := [JVal.num 4], logged := true }
    ∧ onAtcMessage (fun _ => true) (initSession (some 0) (1/10) false) (forceMsg 1) =
      { state := { initSession (some 0) (1/10) false with status := updateDict (initSession (some 0) (1/10) false).status [("force", JVal.num 1)], lastForce := 1 },
        fired := [JVal.num 1], logged := true } := by
  constructor
  · exact claim_C10_raising_callback_bookkeeping.1 (initSession (some 0) 3 true) 0 4
      rfl rfl (by decide) (by decide)
  · exact claim_C10_raising_callback_bookkeeping.2 (initSession (some 0) (1/10) false) 0 1
      rfl rfl (by decide)

end Claims

end GripperModel
